import Mathlib

/-!
Verification of the pump-control core: the wire codec and scan step of
`scanner.py`, the aggregation arithmetic and caches of `ws_pumps.py`, the
broadcast hub of `ws_pumps.py`, and the hard-coded frame of `trash.py`.
Bytes are modelled as `Fin 256`, Python ints as `ℤ`/`ℕ`, Python floats as `ℚ`
(with Python's banker's rounding made exact), and raised exceptions as
`Except` errors.
-/

namespace Pump

/-- Error taxonomy for the codec in `scanner.py`: `ValueError` raises are
distinguished by their message. -/
inductive ScanError where
  | invalidPumpId
  | invalidNibble
  | frameLength
deriving DecidableEq, Repr

instance {ε α : Type} [DecidableEq ε] [DecidableEq α] : DecidableEq (Except ε α) :=
  fun a b =>
    match a, b with
    | .ok x, .ok y =>
      if h : x = y then isTrue (congrArg Except.ok h)
      else isFalse (fun hc => h (Except.ok.inj hc))
    | .error x, .error y =>
      if h : x = y then isTrue (congrArg Except.error h)
      else isFalse (fun hc => h (Except.error.inj hc))
    | .ok _, .error _ => isFalse (fun hc => Except.noConfusion hc)
    | .error _, .ok _ => isFalse (fun hc => Except.noConfusion hc)

/-- `scanner.pump_id_to_nibble`: convert pump ID (1-16) to nibble (1-15, 0);
raises `ValueError` otherwise. -/
def pump_id_to_nibble (pump_id : ℕ) : Except ScanError ℕ :=
  if pump_id = 16 then .ok 0
  else if 1 ≤ pump_id ∧ pump_id ≤ 15 then .ok pump_id
  else .error .invalidPumpId

/-- `scanner.nibble_to_pump_id`: convert nibble (1-15, 0) to pump ID (1-16);
raises `ValueError` otherwise. -/
def nibble_to_pump_id (nibble : ℕ) : Except ScanError ℕ :=
  if nibble = 0 then .ok 16
  else if 1 ≤ nibble ∧ nibble ≤ 15 then .ok nibble
  else .error .invalidNibble

/-- `scanner.CMD_STATUS`: the status request command code. -/
def CMD_STATUS : ℕ := 0x0

/-- `scanner.build_status_command`: one byte `(CMD_STATUS <<< 4) ||| nibble`. -/
def build_status_command (pump_id : ℕ) : Except ScanError (List (Fin 256)) := do
  let pump_nibble ← pump_id_to_nibble pump_id
  let command := (CMD_STATUS <<< 4) ||| pump_nibble
  return [Fin.ofNat command]

/-- `scanner.parse_status_response`: requires a 1-byte frame, splits it into
high nibble (status) and low nibble (pump nibble), converts the nibble to a
pump ID, and returns `(pump_id, status)`. -/
def parse_status_response (response : List (Fin 256)) : Except ScanError (ℕ × ℕ) :=
  match response with
  | [word] =>
    let status := (word.val >>> 4) &&& 0xF
    let pump_nibble := word.val &&& 0xF
    (nibble_to_pump_id pump_nibble).map (fun pump_id => (pump_id, status))
  | _ => .error .frameLength

/-- The standalone scanner's own status enumeration (`scanner.PumpStatus`),
with raw protocol names. -/
inductive ScannerStatus where
  | DATA_ERROR
  | OFF
  | CALL
  | AUTHORIZED
  | BUSY
  | PEOT
  | FEOT
  | STOP
  | OFFLINE
deriving DecidableEq, Repr

/-- `scanner.status_code_to_enum`: dictionary lookup with default `OFFLINE`. -/
def status_code_to_enum (status_code : ℕ) : ScannerStatus :=
  if status_code = 0x0 then .DATA_ERROR
  else if status_code = 0x6 then .OFF
  else if status_code = 0x7 then .CALL
  else if status_code = 0x8 then .AUTHORIZED
  else if status_code = 0x9 then .BUSY
  else if status_code = 0xA then .PEOT
  else if status_code = 0xB then .FEOT
  else if status_code = 0xC then .STOP
  else .OFFLINE

/-- The semantic pump states of `models.PumpStatus`. -/
inductive PumpState where
  | IDLE
  | CALLING
  | AUTHORIZED
  | DISPENSING
  | COMPLETE
  | STOPPED
  | ERROR
  | OFFLINE
deriving DecidableEq, Repr

/-- Modelled from the spec: the status-code → semantic-state mapping
(`statusToState`). Its implementation lives in the `pump_manager` module,
which is not part of the sources here; the mapping is declared by the
`models.PumpStatus` docstring: 0x0 → ERROR, 0x6 → IDLE, 0x7 → CALLING,
0x8 → AUTHORIZED, 0x9 → DISPENSING, 0xA/0xB → COMPLETE, 0xC → STOPPED,
0xD → ERROR, and any code outside the known set → ERROR. -/
def statusToState (code : ℕ) : PumpState :=
  if code = 0x6 then .IDLE
  else if code = 0x7 then .CALLING
  else if code = 0x8 then .AUTHORIZED
  else if code = 0x9 then .DISPENSING
  else if code = 0xA ∨ code = 0xB then .COMPLETE
  else if code = 0xC then .STOPPED
  else .ERROR

/-- Python's built-in `round` to an integer: round half to even. -/
def roundHalfEven (q : ℚ) : ℤ :=
  let f := ⌊q⌋
  if q - f < 1 / 2 then f
  else if q - f > 1 / 2 then f + 1
  else if f % 2 = 0 then f else f + 1

theorem roundHalfEven_of_lt {q : ℚ} {f : ℤ} (h1 : (f : ℚ) ≤ q) (h2 : q < (f : ℚ) + 1 / 2) :
    roundHalfEven q = f := by
  have hf : ⌊q⌋ = f := Int.floor_eq_iff.mpr ⟨h1, by linarith⟩
  simp only [roundHalfEven, hf]
  rw [if_pos (by linarith)]

theorem roundHalfEven_of_gt {q : ℚ} {f : ℤ} (h1 : (f : ℚ) + 1 / 2 < q) (h2 : q < (f : ℚ) + 1) :
    roundHalfEven q = f + 1 := by
  have hf : ⌊q⌋ = f := Int.floor_eq_iff.mpr ⟨by linarith, h2⟩
  simp only [roundHalfEven, hf]
  rw [if_neg (by linarith), if_pos (by linarith)]

theorem roundHalfEven_intCast (n : ℤ) : roundHalfEven (n : ℚ) = n := by
  simp only [roundHalfEven, Int.floor_intCast, sub_self]
  norm_num

/-- Python's `round(q, n)`: round half to even at `n` decimal digits. -/
def roundTo (q : ℚ) (n : ℕ) : ℚ :=
  (roundHalfEven (q * 10 ^ n) : ℚ) / 10 ^ n

/-- `ws_pumps.fix_price` on a non-`None` argument: `p = int(round(ppu))`;
a price above 9999 that is a multiple of 10 with `p // 10` in `[1000, 9999]`
is divided by 10, anything else is returned as `p`. -/
def fix_price (ppu : ℚ) : ℤ :=
  let p := roundHalfEven ppu
  if 9999 < p ∧ p % 10 = 0 ∧ 1000 ≤ p / 10 ∧ p / 10 ≤ 9999 then p / 10
  else p

/-- The realtime record computed in the DISPENSING branch of
`ws_pumps.pumps_socket` (fields `total_amount` and `volume`, in that order).
`meta_price` is the cached `meta[pid]["price_per_unit"]` (`none` when absent),
`ll` the cached `last_live[pid]` after this tick's update (`none` when the
key is absent). The source first computes
`price = (price_per_unit * 10) if price_per_unit else None`, then
`total_amount = round(last_live[pid], 2) * 1000` and
`volume = round(total_amount / price, 3)` when `price and price > 0` and the
live cache is present, else `volume = round(last_live[pid], 3)` when only the
live cache is present. -/
def compute_rt (meta_price : Option ℚ) (ll : Option ℚ) : Option ℚ × Option ℚ :=
  let price : Option ℚ :=
    match meta_price with
    | some ppu => if ppu = 0 then none else some (ppu * 10)
    | none => none
  match price, ll with
  | some pr, some lv =>
    if 0 < pr then
      let total_amount := roundTo lv 2 * 1000
      (some total_amount, some (roundTo (total_amount / pr) 3))
    else
      (none, some (roundTo lv 3))
  | none, some lv => (none, some (roundTo lv 3))
  | _, none => (none, none)

/-- The DISPENSING branch of the per-pump tick in `ws_pumps.pumps_socket`,
acting on one pump's caches: the live read (`pm.get_realtime`, `none` when it
returned `None`) overwrites `last_live[pid]` when present; the realtime record
is computed from the updated cache; `last_tx` is popped exactly when
`pid in last_live and last_live[pid] == 0`. Returns
`(realtime record, updated last_live entry, updated last_tx entry)`. -/
def dispensing_step {α : Type} (meta_price live_read ll : Option ℚ) (tx : Option α) :
    (Option ℚ × Option ℚ) × Option ℚ × Option α :=
  let ll' := match live_read with
    | some v => some v
    | none => ll
  let rt := compute_rt meta_price ll'
  let tx' := if ll' = some 0 then none else tx
  (rt, ll', tx')

/-- One pump's cache update for a whole tick of `ws_pumps.pumps_socket`,
restricted to the `last_live` / `last_tx` caches: only the DISPENSING branch
touches them (in the COMPLETE/IDLE branch the transaction read is the stub
`tx = {}`, so its `if tx:` body never runs, and no branch ever deletes a
`last_live` entry). Returns `(updated last_live entry, updated last_tx entry)`. -/
def pump_tick {α : Type} (status : PumpState) (meta_price live_read ll : Option ℚ)
    (tx : Option α) : Option ℚ × Option α :=
  if status = .DISPENSING then (dispensing_step meta_price live_read ll tx).2
  else (ll, tx)

/-- `ws_pumps.Hub.broadcast`, with subscribers as identifiers and delivery
failure as a predicate: iterate over a copy of `clients`, collecting the
subscribers whose `send_json` raised; every raise is caught (`except ...
Exception`), so the others are still sent to; afterwards each collected
subscriber is removed from the registry by `disconnect` (which filters out
every entry identical to it). Returns
`(successfully delivered, registry after the sweep)`. -/
def hub_broadcast (clients : List ℕ) (fails : ℕ → Bool) : List ℕ × List ℕ :=
  let delivered := clients.filter (fun ws => !fails ws)
  let disconnected := clients.filter (fun ws => fails ws)
  (delivered, disconnected.foldl (fun cs ws => cs.filter (fun c => c ≠ ws)) clients)

/-- One discovered-pump entry of `scanner.main` (`response_raw` kept as the
raw frame). -/
structure DiscoveredPump where
  address : ℕ
  status : ScannerStatus
  status_code : ℕ
  response_raw : List (Fin 256)
deriving DecidableEq, Repr

/-- Outcome classification of one probe in `scanner.main`. -/
inductive ProbeOutcome where
  | noResponse
  | parseFailed
  | mismatch (expected got : ℕ)
  | offlinePump
  | added
deriving DecidableEq, Repr

/-- The response-handling step of `scanner.main` for one polled address:
empty read ⇒ no response; parse failure ⇒ logged, nothing added; echoed
pump ID ≠ polled address ⇒ mismatch warning, nothing added; decoded status
`OFFLINE` ⇒ nothing added; otherwise the pump is appended to
`discovered_pumps`. -/
def process_probe (pump_address : ℕ) (response : List (Fin 256))
    (discovered : List DiscoveredPump) : List DiscoveredPump × ProbeOutcome :=
  if response.isEmpty then (discovered, .noResponse)
  else
    match parse_status_response response with
    | .error _ => (discovered, .parseFailed)
    | .ok (response_pump_id, status_code) =>
      let status := status_code_to_enum status_code
      if response_pump_id = pump_address then
        if status ≠ ScannerStatus.OFFLINE then
          (discovered ++ [⟨pump_address, status, status_code, response⟩], .added)
        else (discovered, .offlinePump)
      else (discovered, .mismatch pump_address response_pump_id)

/-- The `transaction` sub-object of a record in `trash.get_frame`. -/
structure TxRecord where
  pump_id : ℕ
  volume : ℚ
  price_per_unit : ℚ
  total_amount : ℚ
  grade : ℕ
  timestamp : String
deriving DecidableEq, Repr

/-- The `realtime` sub-object of a record in `trash.get_frame`. -/
structure RtRecord where
  price_per_unit : ℚ
  grade : ℕ
  timestamp : String
  total_amount : ℚ
  volume : ℚ
deriving DecidableEq, Repr

/-- One pump record of the frame built by `trash.get_frame`. -/
structure PumpRecord where
  pump_id : ℕ
  status : String
  last_updated : String
  error_message : Option String
  raw_status_code : Option String
  wire_format : Option String
  transaction : Option TxRecord := none
  realtime : Option RtRecord := none
deriving DecidableEq, Repr

/-- The frame `{ ts, pumps }` broadcast on every tick. -/
structure Frame where
  ts : String
  pumps : List PumpRecord
deriving DecidableEq, Repr

/-- `trash.get_frame`: hard-coded test data; `current_time` is the single
`datetime.now(timezone.utc).isoformat()` value taken at the top of the call,
reused for `ts`, every `last_updated` and every nested timestamp. -/
def get_frame (current_time : String) : Frame :=
  { ts := current_time
    pumps :=
      [ { pump_id := 1
          status := "IDLE"
          last_updated := current_time
          error_message := none
          raw_status_code := some "0x6"
          wire_format := some "0x61"
          transaction := some
            { pump_id := 1, volume := 30.0, price_per_unit := 8150,
              total_amount := 244500.0, grade := 0, timestamp := current_time } }
      , { pump_id := 2
          status := "CALLING"
          last_updated := current_time
          error_message := none
          raw_status_code := some "0x7"
          wire_format := some "0x72" }
      , { pump_id := 3
          status := "AUTHORIZED"
          last_updated := current_time
          error_message := none
          raw_status_code := some "0x8"
          wire_format := some "0x83" }
      , { pump_id := 4
          status := "DISPENSING"
          last_updated := current_time
          error_message := none
          raw_status_code := some "0x9"
          wire_format := some "0x94"
          realtime := some
            { price_per_unit := 81500, grade := 0, timestamp := current_time,
              total_amount := 25400, volume := 3.116 } }
      , { pump_id := 5
          status := "COMPLETE"
          last_updated := current_time
          error_message := none
          raw_status_code := some "0xA"
          wire_format := some "0xA5"
          transaction := some
            { pump_id := 5, volume := 15.234, price_per_unit := 8150,
              total_amount := 124156.1, grade := 0, timestamp := current_time } }
      , { pump_id := 6
          status := "STOPPED"
          last_updated := current_time
          error_message := none
          raw_status_code := some "0xC"
          wire_format := some "0xC6" }
      , { pump_id := 7
          status := "ERROR"
          last_updated := current_time
          error_message := some "Communication timeout"
          raw_status_code := some "0x0"
          wire_format := some "0x07" }
      , { pump_id := 8
          status := "OFFLINE"
          last_updated := current_time
          error_message := some "No response from pump"
          raw_status_code := none
          wire_format := none } ] }

/-- The payload the `/ws/pumps` tick loop hands to `Hub.broadcast`
(`await hub.broadcast(get_frame())` in `ws_pumps.pumps_socket`): it is
`get_frame()` itself, regardless of the per-pump statuses computed earlier in
the tick (the locally built `frame` is discarded). -/
def tick_broadcast_payload (current_time : String) : Frame :=
  get_frame current_time

/-- Erase the tick-time-dependent fields of a pump record (`last_updated` and
the nested transaction/realtime timestamps). -/
def scrub_times (p : PumpRecord) : PumpRecord :=
  { p with
    last_updated := ""
    transaction := p.transaction.map (fun tx => { tx with timestamp := "" })
    realtime := p.realtime.map (fun rt => { rt with timestamp := "" }) }

/-- In `ws_pumps.main`, whether `parse_status_response` succeeds on a frame with
a pump ID in [1,16] and a status code in [0,15]. -/
def parse_ok_in_range (response : List (Fin 256)) : Bool :=
  match parse_status_response response with
  | .ok (pump_id, status) => 1 ≤ pump_id && pump_id ≤ 16 && status ≤ 15
  | .error _ => false

theorem fix_price_intCast (p : ℤ) : fix_price (p : ℚ) =
    if 9999 < p ∧ p % 10 = 0 ∧ 1000 ≤ p / 10 ∧ p / 10 ≤ 9999 then p / 10 else p := by
  simp only [fix_price, roundHalfEven_intCast]

theorem remove_all_eq_filter (ds : List ℕ) (cs : List ℕ) :
    ds.foldl (fun acc ws => acc.filter (fun c => c ≠ ws)) cs
      = cs.filter (fun c => !ds.contains c) := by
  induction ds generalizing cs with
  | nil => simp
  | cons d ds ih =>
    rw [List.foldl_cons, ih, List.filter_filter]
    refine List.filter_congr ?_
    intro c _
    simp [List.contains_cons, Bool.and_comm, eq_comm]

theorem roundTo_ten_two : roundTo 10 2 = 10 := by
  rw [roundTo, roundHalfEven_of_lt (f := 1000) (by norm_num) (by norm_num)]
  norm_num

/-- C1 counterexample: with the repaired price 8150 cached and a live value of
10.00, the DISPENSING realtime record carries `total_amount = 10000` but
`volume = 0.123`, not `round(10000/8150, 3) = 1.227` as the claim states — the
code divides by `price_per_unit * 10 = 81500`, not by the repaired price. -/
theorem C1_counterexample :
    compute_rt (some 8150) (some 10) = (some 10000, some (123 / 1000)) ∧
    roundTo (10000 / 8150) 3 = 1227 / 1000 ∧ ((123 : ℚ) / 1000) ≠ 1227 / 1000 := by
  refine ⟨?_, ?_, by norm_num⟩
  · have h1 : compute_rt (some 8150) (some 10) =
        (some (roundTo 10 2 * 1000), some (roundTo (roundTo 10 2 * 1000 / (8150 * 10)) 3)) := by
      simp only [compute_rt]
      norm_num
    rw [h1, roundTo_ten_two, show ((10 : ℚ) * 1000 / (8150 * 10)) = 20 / 163 by norm_num,
      show roundTo ((20 : ℚ) / 163) 3 = 123 / 1000 by
        rw [roundTo, show ((20 : ℚ) / 163 * 10 ^ 3) = 20000 / 163 by norm_num,
          roundHalfEven_of_gt (f := 122) (by norm_num) (by norm_num)]
        norm_num]
    norm_num
  · rw [roundTo, show ((10000 : ℚ) / 8150 * 10 ^ 3) = 200000 / 163 by norm_num,
      roundHalfEven_of_gt (f := 1226) (by norm_num) (by norm_num)]
    norm_num

/-- C1 (amended): for a DISPENSING pump with a positive repaired cached price
and a cached live value, the realtime record carries
`total_amount = round(liveValue, 2) * 1000` and
`volume = round(total_amount / (price * 10), 3)` — the divisor is ten times the
cached repaired price, so price 8150 with live value 10.00 yields
`total_amount = 10000` and `volume = round(10000/81500, 3) = 0.123`. -/
theorem C1_theorem (ppu lv : ℚ) (h : 0 < ppu) :
    compute_rt (some ppu) (some lv) =
      (some (roundTo lv 2 * 1000), some (roundTo (roundTo lv 2 * 1000 / (ppu * 10)) 3)) := by
  have hne : ppu ≠ 0 := ne_of_gt h
  simp only [compute_rt, if_neg hne]
  rw [if_pos (by positivity)]

/-- C1 witness: the amended realtime formula applied at repaired price 8150 and
live value 10.00. -/
theorem C1_witness :
    (0 : ℚ) < 8150 ∧ compute_rt (some 8150) (some 10) =
      (some (roundTo 10 2 * 1000), some (roundTo (roundTo 10 2 * 1000 / (8150 * 10)) 3)) :=
  ⟨by norm_num, C1_theorem 8150 10 (by norm_num)⟩

/-- C2: the status-code-to-state mapping is total on [0,15] (it is a total Lean
function); codes 0x0 and 0xD both map to ERROR, codes 0xA and 0xB both map to
COMPLETE, and every code outside the known set maps to ERROR. -/
theorem C2_theorem :
    statusToState 0x0 = .ERROR ∧ statusToState 0xD = .ERROR ∧
    statusToState 0xA = .COMPLETE ∧ statusToState 0xB = .COMPLETE ∧
    (∀ c : Fin 16, c.val ∉ ([0x0, 0x6, 0x7, 0x8, 0x9, 0xA, 0xB, 0xC, 0xD] : List ℕ) →
      statusToState c.val = .ERROR) := by
  refine ⟨rfl, rfl, rfl, rfl, ?_⟩
  decide

/-- C2 witness: the unknown code 0x5 maps to ERROR. -/
theorem C2_witness :
    ((5 : Fin 16) : ℕ) ∉ ([0x0, 0x6, 0x7, 0x8, 0x9, 0xA, 0xB, 0xC, 0xD] : List ℕ) ∧
    statusToState ((5 : Fin 16) : ℕ) = .ERROR :=
  ⟨by decide, C2_theorem.2.2.2.2 5 (by decide)⟩

/-- C3 counterexample: the broadcast pumps payload is not identical across two
ticks — the hard-coded records embed the tick time in their `last_updated` and
nested timestamp fields, so two ticks with different clock strings produce
different pumps lists (not only a different `ts`). -/
theorem C3_counterexample : (get_frame "A").pumps ≠ (get_frame "B").pumps := by
  intro h
  have h2 := congrArg (fun l => (l.map (fun p => p.last_updated)).head?) h
  simp only [get_frame, List.map_cons, List.head?_cons] at h2
  exact absurd (Option.some.inj h2) (by decide)

/-- C3 (amended): every tick broadcasts the frame returned by `get_frame()`,
whose pumps field is the fixed hard-coded 8-record list except that the tick
time is copied into each record's `last_updated` (and nested timestamps); for
any two ticks the pumps payloads agree after erasing those time fields, and the
payload is independent of any per-pump status/transaction inputs (`get_frame`
takes none). -/
theorem C3_theorem (t1 t2 : String) :
    tick_broadcast_payload t1 = get_frame t1 ∧
    (get_frame t1).ts = t1 ∧
    (get_frame t1).pumps.map scrub_times = (get_frame t2).pumps.map scrub_times ∧
    (get_frame t1).pumps.map (fun p => p.last_updated) = List.replicate 8 t1 :=
  ⟨rfl, rfl, rfl, rfl⟩

/-- C4 counterexample: in the DISPENSING branch, a live read of 5 against a
previously cached value of 10 (smaller than the cache) leaves the cached
last-transaction in place, contrary to the claimed fresh-sale reset. -/
theorem C4_counterexample :
    (dispensing_step (α := ℕ) none (some 5) (some 10) (some 7)).2 = (some 5, some 7) ∧
    (5 : ℚ) < 10 := by
  constructor
  · simp [dispensing_step]
  · norm_num

/-- C4 (amended): in the DISPENSING branch the cached last-transaction is
cleared exactly when the cached live value after this tick's update equals 0
(not whenever the read is smaller than the previous cache or the cache was
empty); and the cached live value is never cleared when the pump is not
DISPENSING. -/
theorem C4_theorem :
    (∀ (mp ll : Option ℚ) (v : ℚ) (tx : Option ℕ),
      (dispensing_step mp (some v) ll tx).2 = (some v, if v = 0 then none else tx)) ∧
    (∀ (mp ll : Option ℚ) (tx : Option ℕ),
      (dispensing_step mp none ll tx).2 = (ll, if ll = some 0 then none else tx)) ∧
    (∀ (st : PumpState) (mp lr ll : Option ℚ) (tx : Option ℕ),
      st ≠ PumpState.DISPENSING → (pump_tick st mp lr ll tx).1 = ll) := by
  refine ⟨?_, ?_, ?_⟩
  · intro mp ll v tx
    simp [dispensing_step]
  · intro mp ll tx
    simp [dispensing_step]
  · intro st mp lr ll tx h
    simp [pump_tick, h]

/-- C4 witness: an IDLE tick leaves the cached live value untouched. -/
theorem C4_witness :
    PumpState.IDLE ≠ PumpState.DISPENSING ∧
    (pump_tick PumpState.IDLE none none (some 5) (some 7) : Option ℚ × Option ℕ).1 = some 5 :=
  ⟨by decide, C4_theorem.2.2 PumpState.IDLE none none (some 5) (some 7) (by decide)⟩

/-- C5: the price-repair function maps an integer price above 9999 that is an
exact multiple of 10 with quotient in [1000, 9999] to that quotient and passes
every other integer price through unchanged; fixPrice(8150) = 8150,
fixPrice(81500) = 8150, fixPrice(12345) = 12345. -/
theorem C5_theorem :
    (∀ p : ℤ, fix_price (p : ℚ) =
      if 9999 < p ∧ p % 10 = 0 ∧ 1000 ≤ p / 10 ∧ p / 10 ≤ 9999 then p / 10 else p) ∧
    fix_price 8150 = 8150 ∧ fix_price 81500 = 8150 ∧ fix_price 12345 = 12345 := by
  refine ⟨fun p => fix_price_intCast p, ?_, ?_, ?_⟩
  · rw [show ((8150 : ℚ)) = ((8150 : ℤ) : ℚ) by norm_num, fix_price_intCast]
    decide
  · rw [show ((81500 : ℚ)) = ((81500 : ℤ) : ℚ) by norm_num, fix_price_intCast]
    decide
  · rw [show ((12345 : ℚ)) = ((12345 : ℤ) : ℚ) by norm_num, fix_price_intCast]
    decide

/-- C6: `parse_status_response` fails with the frame-length error exactly when
the input length is not 1 (in particular on 0-byte and 2-byte inputs), and on
the single byte 0x85 it returns address 5 and status code 0x8. -/
theorem C6_theorem :
    (∀ response : List (Fin 256),
      parse_status_response response = .error .frameLength ↔ response.length ≠ 1) ∧
    parse_status_response [(0x85 : Fin 256)] = .ok (5, 8) := by
  constructor
  · intro response
    match response with
    | [] => simp [parse_status_response]
    | [w] =>
      simp only [parse_status_response, List.length_singleton, ne_eq, not_true_eq_false,
        iff_false]
      unfold nibble_to_pump_id
      split_ifs <;> simp [Except.map]
    | _ :: _ :: _ => simp [parse_status_response]
  · decide

/-- C6 witness: the frame-length error on a 0-byte and on a 2-byte input. -/
theorem C6_witness :
    parse_status_response ([] : List (Fin 256)) = .error .frameLength ∧
    parse_status_response [(0x00 : Fin 256), (0x85 : Fin 256)] = .error .frameLength :=
  ⟨(C6_theorem.1 []).mpr (by decide), (C6_theorem.1 [0x00, 0x85]).mpr (by decide)⟩

/-- C7: for every address a in [1,16], addressOfNibble(nibbleOf(a)) = a; and
nibbleOf(16) = 0, nibbleOf(1) = 1, nibbleOf(15) = 15, addressOfNibble(0) = 16. -/
theorem C7_theorem :
    (∀ a : ℕ, 1 ≤ a → a ≤ 16 → (pump_id_to_nibble a).bind nibble_to_pump_id = .ok a) ∧
    pump_id_to_nibble 16 = .ok 0 ∧ pump_id_to_nibble 1 = .ok 1 ∧
    pump_id_to_nibble 15 = .ok 15 ∧ nibble_to_pump_id 0 = .ok 16 := by
  refine ⟨?_, by decide, by decide, by decide, by decide⟩
  intro a h1 h2
  interval_cases a <;> decide

/-- C7 witness: the round trip at address 16, the wrap-around case. -/
theorem C7_witness :
    1 ≤ 16 ∧ 16 ≤ 16 ∧ (pump_id_to_nibble 16).bind nibble_to_pump_id = .ok 16 :=
  ⟨by decide, by decide, C7_theorem.1 16 (by decide) (by decide)⟩

/-- C8: when a well-formed 1-byte reply's echoed address differs from the
polled address, the scan step records an address-mismatch outcome and leaves
the discovered set unchanged, so neither the polled nor the echoed address is
added. -/
theorem C8_theorem (pump_address : ℕ) (response : List (Fin 256))
    (discovered : List DiscoveredPump) (rid code : ℕ)
    (hok : parse_status_response response = .ok (rid, code)) (hne : rid ≠ pump_address) :
    process_probe pump_address response discovered =
      (discovered, .mismatch pump_address rid) := by
  match response with
  | [] => simp [parse_status_response] at hok
  | w :: rest =>
    simp only [process_probe, List.isEmpty_cons, Bool.false_eq_true, if_false, hok]
    rw [if_neg hne]

/-- C8 witness: polling address 3 and receiving 0x87 (address 7, status 0x8)
yields a mismatch and an unchanged empty discovered set. -/
theorem C8_witness :
    parse_status_response [(0x87 : Fin 256)] = .ok (7, 8) ∧ (7 : ℕ) ≠ 3 ∧
    process_probe 3 [(0x87 : Fin 256)] [] = ([], .mismatch 3 7) :=
  ⟨by decide, by decide, C8_theorem 3 [(0x87 : Fin 256)] [] 7 8 (by decide) (by decide)⟩

/-- C9: broadcast delivers to exactly the subscribers whose send succeeds (a
failing subscriber stops nobody else and raises nothing), the failing ones are
removed from the registry in the post-sweep batch, and a subsequent broadcast
reaches exactly the remaining subscribers; with subscribers [1,2,3] and 2
failing: exactly the 2 deliveries [1,3] and a registry of [1,3]. -/
theorem C9_theorem :
    (∀ (clients : List ℕ) (fails : ℕ → Bool),
      (hub_broadcast clients fails).1 = clients.filter (fun ws => !fails ws) ∧
      (hub_broadcast clients fails).2 = clients.filter (fun ws => !fails ws) ∧
      (hub_broadcast ((hub_broadcast clients fails).2) (fun _ => false)).1 =
        clients.filter (fun ws => !fails ws)) ∧
    hub_broadcast [1, 2, 3] (fun ws => ws == 2) = ([1, 3], [1, 3]) ∧
    hub_broadcast [1, 3] (fun _ => false) = ([1, 3], [1, 3]) := by
  have hreg : ∀ (clients : List ℕ) (fails : ℕ → Bool),
      (hub_broadcast clients fails).2 = clients.filter (fun ws => !fails ws) := by
    intro clients fails
    simp only [hub_broadcast]
    rw [remove_all_eq_filter]
    refine List.filter_congr ?_
    intro c hc
    by_cases h : fails c
    · simp [List.elem_iff, List.mem_filter, hc, h]
    · simp [List.elem_iff, List.mem_filter, h]
  refine ⟨fun clients fails => ⟨rfl, hreg clients fails, ?_⟩, by decide, by decide⟩
  rw [hreg clients fails]
  simp [hub_broadcast]

set_option maxRecDepth 8000 in
/-- C10: on every 1-byte input the parser cannot raise: the low nibble always
lies in [0,15], so the nibble-conversion error branch is unreachable, and the
result is a pair with address in [1,16] and status code in [0,15]. -/
theorem C10_theorem : ∀ w : Fin 256, parse_ok_in_range [w] = true := by decide

end Pump
